import Mathlib

/-!
Verification of the mqanim repository (a macroquad-based animation/plotting
helper) against its natural-language specification.

The relevant source files are `src/lib.rs` (the `Animation` virtual canvas,
the `map` coordinate mapper) and `src/plot.rs` (the `Graph` plotting
component).  Rust `f32` arithmetic is modelled by exact rational arithmetic
(`ℚ`): every constant appearing in the claims (0.5, 1.5, tick steps, domain
bounds) is exactly representable in `f32`, and the claims themselves are
algebraic ("within floating-point tolerance"), so the rational model is the
faithful shallow embedding of the arithmetic the code performs.
Side-effecting draw calls are modelled by lists of emitted draw commands,
and `panic!`/`expect` by `Except String`.
-/

namespace Mqanim

/-- Embedding of macroquad's `Vec2` (two `f32` components). -/
@[ext]
structure Vec2 where
  x : ℚ
  y : ℚ
deriving DecidableEq, Repr

/-- Embedding of macroquad's `Color` (r, g, b, a components). -/
structure Color where
  r : ℚ
  g : ℚ
  b : ℚ
  a : ℚ
deriving DecidableEq, Repr

/-- macroquad's `WHITE`. -/
def WHITE : Color := ⟨1, 1, 1, 1⟩

/-- macroquad's `GRAY` (only used by widget defaults). -/
def GRAY : Color := ⟨1/2, 1/2, 1/2, 1⟩

/-- src/lib.rs lines 206-208: `map(val, min1, max1, min2, max2)`,
the scalar linear interpolation `((val - min1) / (max1 - min1)) * (max2 - min2) + min2`. -/
def map (val min1 max1 min2 max2 : ℚ) : ℚ :=
  ((val - min1) / (max1 - min1)) * (max2 - min2) + min2

/-- Rust's `std::ops::Range<f32>` (`start..end`); Rust's `end` field is
spelled `stop` here because `end` is a Lean keyword. -/
structure Range where
  start : ℚ
  stop : ℚ
deriving DecidableEq, Repr

/-- `Range::contains(&v)` for a half-open range: `start <= v && v < end`. -/
def Range.containsQ (r : Range) (v : ℚ) : Bool :=
  decide (r.start ≤ v) && decide (v < r.stop)

/-! ## The `Animation` virtual canvas (src/lib.rs) -/

/-- src/lib.rs line 11: `RESIZE_HYSTERESIS: f32 = 0.5`. -/
def RESIZE_HYSTERESIS : ℚ := 1/2

/-- src/lib.rs lines 13-16: `enum RenderState`. -/
inductive RenderState where
  | CameraRendering
  | ScreenRendering
deriving DecidableEq, Repr

/-- State of an `Animation` (src/lib.rs lines 18-30).  The GPU-side
`render_target`, `camera` and `material` are external resources; what the
claims observe about them is the allocated surface size (`width`, `height`
after a `render_target(width as u32, height as u32)` call) and how many
times a fresh surface has been allocated, so the embedding tracks the
allocation count explicitly in `allocCount` (incremented exactly where the
code calls macroquad's `render_target`). -/
structure AnimState where
  width : ℚ
  height : ℚ
  draw_size : Vec2
  scale : ℚ
  auto_resize : Bool
  render_state : RenderState
  bg_color : Color
  allocCount : ℕ
deriving DecidableEq, Repr

/-- src/lib.rs lines 190-203: `Animation::resize_render_target` sets
`width`/`height` and allocates a fresh render target of that size
(the allocation is recorded by bumping `allocCount`). -/
def resize_render_target (s : AnimState) (new_width new_height : ℚ) : AnimState :=
  { s with width := new_width, height := new_height, allocCount := s.allocCount + 1 }

/-- src/lib.rs lines 117-139: `Animation::set_camera` ("activate"): when
`auto_resize` is on, applies the hysteresis comparison of `width`/`height`
against `draw_size` and possibly resizes the render target; then directs
drawing to the camera and enters `CameraRendering`. -/
def set_camera (s : AnimState) : AnimState :=
  let s :=
    if s.auto_resize then
      if s.width > s.draw_size.x * (1 + RESIZE_HYSTERESIS)
          ∨ s.height > s.draw_size.y * (1 + RESIZE_HYSTERESIS) then
        resize_render_target s (s.width * RESIZE_HYSTERESIS) (s.height * RESIZE_HYSTERESIS)
      else if s.width ≤ s.draw_size.x * (1 - RESIZE_HYSTERESIS)
          ∨ s.height ≤ s.draw_size.y * (1 - RESIZE_HYSTERESIS) then
        resize_render_target s (s.width * 1 / RESIZE_HYSTERESIS) (s.height * 1 / RESIZE_HYSTERESIS)
      else s
    else s
  { s with render_state := RenderState.CameraRendering }

/-- src/lib.rs lines 141-144: `Animation::set_default_camera` ("deactivate"). -/
def set_default_camera (s : AnimState) : AnimState :=
  { s with render_state := RenderState.ScreenRendering }

/-- src/lib.rs lines 186-188: `Animation::compute_scale(width, height)` with
window dimensions `W × H`: `min(screen_width()/width, screen_height()/height)`. -/
def compute_scale (W H width height : ℚ) : ℚ :=
  min (W / width) (H / height)

/-- The letterboxed blit rectangle `draw_frame` issues: top-left position and
destination size of the `draw_texture_ex` call. -/
structure Blit where
  pos : Vec2
  size : Vec2
deriving DecidableEq, Repr

/-- src/lib.rs lines 146-176: `Animation::draw_frame` ("blit_to_window") with
window dimensions `W × H`.  Panics (modelled as `Except.error`) when
`render_state` is still `CameraRendering`; otherwise recomputes `scale` and
`draw_size` and blits the render target centered in the window. -/
def draw_frame (W H : ℚ) (s : AnimState) : Except String (AnimState × Blit) :=
  if s.render_state = RenderState.CameraRendering then
    Except.error
      "Animation::set_default_camera must be called before you can draw the frame to the screen"
  else
    let scale := compute_scale W H s.width s.height
    let draw_size : Vec2 := ⟨s.width * scale, s.height * scale⟩
    Except.ok
      ({ s with scale := scale, draw_size := draw_size },
       ⟨⟨(W - s.width * scale) * (1/2), (H - s.height * scale) * (1/2)⟩, draw_size⟩)

/-- src/lib.rs lines 90-98: `Animation::screen_to_world`, over the canvas
size `width × height`, the stored `scale`, and window dimensions `W × H`. -/
def screen_to_world (width height scale W H : ℚ) (point : Vec2) : Vec2 :=
  ⟨(point.x - (W - width * scale) * (1/2)) / scale - (1/2) * width,
   (1/2) * height - (point.y - (H - height * scale) * (1/2)) / scale⟩

/-- Forward blit transform, following the claim's description of
`draw_frame`'s letterboxing: `scale = min(W/width, H/height)`, centering
offset `(window_dim - declared_dim * scale) / 2` on each axis, y flipped
(canvas y up, screen y down).  A world point `p` sits at texture pixel
`(p.x + width/2, height/2 - p.y)` and is stretched by `scale` from the blit
origin. -/
def project_to_screen (W H width height : ℚ) (p : Vec2) : Vec2 :=
  let scale := compute_scale W H width height
  ⟨(W - width * scale) * (1/2) + (p.x + width * (1/2)) * scale,
   (H - height * scale) * (1/2) + (height * (1/2) - p.y) * scale⟩

/-! ## The default-font singleton (src/lib.rs lines 9 and 55-60) -/

/-- Abstract font handle (the decoded TTF is opaque to the claims). -/
def Font : Type := ℕ

/-- The font decoded from the bundled `Droid Sans Mono.ttf` bytes. -/
def droidSansMono : Font := (0 : ℕ)

/-- Semantics of `std::sync::OnceLock::set` on the cell's contents
(modelled from the Rust standard library: `Ok(())` and the written value
when the cell was empty, `Err(value)` leaving the cell untouched when it
was already initialized). -/
def onceLockSet (cell : Option Font) (v : Font) : Except Font (Option Font) :=
  match cell with
  | none => Except.ok (some v)
  | some _ => Except.error v

/-- src/lib.rs lines 33-75: `Animation::new(start_width, start_height, bg_color)`
threaded over the contents of the process-wide `DEFAULT_FONT` cell and the
window dimensions `W × H` (read by `compute_scale`).  The
`DEFAULT_FONT.set(font).expect(...)` call turns a second initialization into
a panic (`Except.error`). -/
def Animation.new (cell : Option Font) (W H start_width start_height : ℚ)
    (bg_color : Option Color) : Except String (Option Font × AnimState) :=
  let bg := match bg_color with
    | some c => c
    | none => ⟨43/255, 44/255, 47/255, 1⟩
  match onceLockSet cell droidSansMono with
  | Except.error _ => Except.error "Failed to set the Default font to Droid Sans Mono"
  | Except.ok cell =>
      Except.ok (cell,
        { width := start_width, height := start_height,
          draw_size := ⟨start_width, start_height⟩,
          scale := compute_scale W H start_width start_height,
          auto_resize := true,
          render_state := RenderState.ScreenRendering,
          bg_color := bg,
          allocCount := 1 })

/-- Is an `Except` an `ok` value? -/
def exceptOk {ε α : Type} : Except ε α → Bool
  | Except.ok _ => true
  | Except.error _ => false

/-! ## The `Graph` plotting component (src/plot.rs) -/

instance : Add Vec2 := ⟨fun a b => ⟨a.x + b.x, a.y + b.y⟩⟩

/-- src/plot.rs lines 7-24: `LabelStyle`. -/
structure LabelStyle where
  pos_offset : Vec2
  color : Color
  font_size : ℕ
  decimal_places : ℕ
deriving DecidableEq, Repr

/-- Default `LabelStyle` (src/plot.rs lines 15-24). -/
def LabelStyle.default : LabelStyle := ⟨⟨0, 0⟩, WHITE, 12, 2⟩

/-- src/plot.rs lines 26-40: `MarkerStyle`. -/
structure MarkerStyle where
  length : ℚ
  thickness : ℚ
  color : Color
deriving DecidableEq, Repr

/-- Default `MarkerStyle` (src/plot.rs lines 32-40). -/
def MarkerStyle.default : MarkerStyle := ⟨5, 2, WHITE⟩

/-- src/plot.rs lines 42-57: `TickStyle` (default: `Nothing`). -/
inductive TickStyle where
  | LabelAndMarker (label_style : LabelStyle) (marker_style : MarkerStyle)
  | Marker (style : MarkerStyle)
  | Label (style : LabelStyle)
  | Nothing
deriving DecidableEq, Repr

/-- src/plot.rs lines 59-68: `GraphEndPointStyle` (default: `Arrow { thickness: 7. }`). -/
inductive GraphEndPointStyle where
  | Arrow (thickness : ℚ)
  | Nothing
deriving DecidableEq, Repr

/-- src/plot.rs lines 70-88: `AxisStyle`. -/
structure AxisStyle where
  tick_step : ℚ
  tick_style : TickStyle
  end_point_style : GraphEndPointStyle
  line_thickness : ℚ
  line_color : Color
deriving DecidableEq, Repr

/-- Default `AxisStyle` (src/plot.rs lines 78-88). -/
def AxisStyle.default : AxisStyle :=
  ⟨1/2, TickStyle.Nothing, GraphEndPointStyle.Arrow 7, 3, WHITE⟩

/-- src/plot.rs lines 90-94: `GraphStyle`. -/
structure GraphStyle where
  x_style : AxisStyle
  y_style : AxisStyle
deriving DecidableEq, Repr

/-- Default `GraphStyle`. -/
def GraphStyle.default : GraphStyle := ⟨AxisStyle.default, AxisStyle.default⟩

/-- src/plot.rs lines 96-105: the `Graph` record. -/
structure Graph where
  world_center_pos : Vec2
  world_size : Vec2
  x_range : Range
  y_range : Range
  style : GraphStyle
  world_min_coords : Vec2
  world_max_coords : Vec2
  axes_pos : Vec2
deriving Repr

/-- src/plot.rs lines 107-110: `Orientation`. -/
inductive Orientation where
  | Horizontal
  | Vertical
deriving DecidableEq, Repr

/-- src/plot.rs lines 455-472: `Graph::graph_to_world` maps a point from
domain (graph) coordinates to world coordinates with `map` on each axis. -/
def Graph.graph_to_world (g : Graph) (pt : Vec2) : Vec2 :=
  ⟨map pt.x g.x_range.start g.x_range.stop g.world_min_coords.x g.world_max_coords.x,
   map pt.y g.y_range.start g.y_range.stop g.world_min_coords.y g.world_max_coords.y⟩

/-- Body of `Graph::new` after the two range assertions
(src/plot.rs lines 128-153): derives `world_min_coords`/`world_max_coords`
from center and size, computes `axes_pos = graph_to_world(0,0)`, then clamps
each axis of `axes_pos` to the minimum edge when that axis's range does not
contain 0 and its end is nonzero. -/
def Graph.init (world_center_pos world_size : Vec2) (x_range y_range : Range) : Graph :=
  let graph : Graph :=
    { world_center_pos := world_center_pos,
      world_size := world_size,
      x_range := x_range,
      y_range := y_range,
      style := GraphStyle.default,
      world_min_coords :=
        ⟨world_center_pos.x - world_size.x / 2, world_center_pos.y - world_size.y / 2⟩,
      world_max_coords :=
        ⟨world_center_pos.x + world_size.x / 2, world_center_pos.y + world_size.y / 2⟩,
      axes_pos := ⟨0, 0⟩ }
  let axes_pos := graph.graph_to_world ⟨0, 0⟩
  let axes_pos :=
    if ¬(y_range.containsQ 0 = true) ∧ y_range.stop ≠ 0 then
      { axes_pos with y := graph.world_min_coords.y }
    else axes_pos
  let axes_pos :=
    if ¬(x_range.containsQ 0 = true) ∧ x_range.stop ≠ 0 then
      { axes_pos with x := graph.world_min_coords.x }
    else axes_pos
  { graph with axes_pos := axes_pos }

/-- src/plot.rs lines 113-154: `Graph::new`, with the two `assert!` calls on
the ranges modelled as `Except.error`. -/
def Graph.new (world_center_pos world_size : Vec2) (x_range y_range : Range) :
    Except String Graph :=
  if ¬(x_range.start < x_range.stop) then
    Except.error "The x_range must have start smaller than end"
  else if ¬(y_range.start < y_range.stop) then
    Except.error "The y_range must have start smaller than end"
  else
    Except.ok (Graph.init world_center_pos world_size x_range y_range)

/-- src/plot.rs lines 155-158: the builder-style `Graph::style`. -/
def Graph.setStyle (g : Graph) (style : GraphStyle) : Graph :=
  { g with style := style }

/-- Draw command emitted by the graph routines: each constructor records one
macroquad call (`draw_line`, `draw_triangle`, `draw_circle`,
`draw_text_centered` for a numeric label formatted with a decimal-place
count). -/
inductive DrawCmd where
  | line (x1 y1 x2 y2 thickness : ℚ) (color : Color)
  | triangle (v1 v2 v3 : Vec2) (color : Color)
  | circle (x y radius : ℚ) (color : Color)
  | text (value : ℚ) (decimal_places : ℕ) (x y : ℚ) (font_size : ℕ) (color : Color)
deriving DecidableEq, Repr

/-- Rust's `f32::round`: round half away from zero. -/
def rustRound (q : ℚ) : ℤ :=
  if 0 ≤ q then ⌊q + 1/2⌋ else ⌈q - 1/2⌉

/-- Tick starting value for one axis (src/plot.rs lines 199-205 and 242-248):
0 when the half-open range contains 0, the range's end when both endpoints
are negative, the range's start otherwise. -/
def tick_start (r : Range) : ℚ :=
  if r.containsQ 0 then 0
  else if r.start < 0 ∧ r.stop < 0 then r.stop
  else r.start

/-- Tick loop count for one axis (src/plot.rs lines 207-212 and 250-255):
`(end - start) / tick_step`, plus 1 when either endpoint is exactly 0, then
`.round() as usize` (round half away from zero; the cast saturates negative
values to 0). -/
def num_ticks (r : Range) (tick_step : ℚ) : ℕ :=
  (rustRound (if r.start = 0 ∨ r.stop = 0
    then (r.stop - r.start) / tick_step + 1
    else (r.stop - r.start) / tick_step)).toNat

/-- The tick values one axis emits, in emission order (src/plot.rs
lines 213-239 and 256-282): for each `tick_num` below `num_ticks`, the value
`above = tick_start + tick_num * step` when it is at most the range's end
and is nonzero unless an endpoint is exactly 0, then the value
`below = tick_start - tick_num * step` under the symmetric filter against
the range's start. -/
def axis_tick_values (r : Range) (tick_step : ℚ) : List ℚ :=
  (List.range (num_ticks r tick_step)).flatMap (fun tick_num =>
    let above := tick_start r + (tick_num : ℚ) * tick_step
    let below := tick_start r - (tick_num : ℚ) * tick_step
    (if above ≤ r.stop ∧ (r.start = 0 ∨ r.stop = 0 ∨ above ≠ 0) then [above] else []) ++
    (if below ≥ r.start ∧ (r.start = 0 ∨ r.stop = 0 ∨ below ≠ 0) then [below] else []))

/-- src/plot.rs lines 285-401: `Graph::draw_tick` — emits an optional marker
segment and an optional centered label for one tick, depending on the
orientation and the tick style. -/
def draw_tick (pos : Vec2) (value : ℚ) (orientation : Orientation)
    (style : TickStyle) : List DrawCmd :=
  let offset : ℚ := -20
  let vert_offset : Vec2 := ⟨offset, 0⟩
  let hori_offset : Vec2 := ⟨0, offset / 2⟩
  let parts : Option ((Vec2 × Vec2) × ℚ × Color) × Option LabelStyle :=
    match orientation, style with
    | Orientation.Horizontal, TickStyle.LabelAndMarker label_style marker_style =>
        (some ((⟨pos.x, pos.y + marker_style.length / 2⟩,
                ⟨pos.x, pos.y - marker_style.length / 2⟩),
               marker_style.thickness, marker_style.color),
         some { label_style with pos_offset := pos + label_style.pos_offset + hori_offset })
    | Orientation.Horizontal, TickStyle.Marker style =>
        (some ((⟨pos.x, pos.y + style.length / 2⟩,
                ⟨pos.x, pos.y - style.length / 2⟩),
               style.thickness, style.color),
         none)
    | Orientation.Horizontal, TickStyle.Label style =>
        (none, some { style with pos_offset := pos + style.pos_offset + hori_offset })
    | Orientation.Vertical, TickStyle.LabelAndMarker label_style marker_style =>
        (some ((⟨pos.x + marker_style.length / 2, pos.y⟩,
                ⟨pos.x - marker_style.length / 2, pos.y⟩),
               marker_style.thickness, marker_style.color),
         some { label_style with pos_offset := pos + label_style.pos_offset + vert_offset })
    | Orientation.Vertical, TickStyle.Marker style =>
        (some ((⟨pos.x + style.length / 2, pos.y⟩,
                ⟨pos.x - style.length / 2, pos.y⟩),
               style.thickness, style.color),
         none)
    | Orientation.Vertical, TickStyle.Label style =>
        (none, some { style with pos_offset := pos + style.pos_offset + vert_offset })
    | _, TickStyle.Nothing => (none, none)
  (match parts.1 with
   | some ((p1, p2), thickness, color) =>
       [DrawCmd.line p1.x p1.y p2.x p2.y thickness color]
   | none => []) ++
  (match parts.2 with
   | some ls =>
       [DrawCmd.text value ls.decimal_places ls.pos_offset.x ls.pos_offset.y
         ls.font_size ls.color]
   | none => [])

/-- src/plot.rs lines 191-283: `Graph::draw_ticks` — early exit when both
tick styles are `Nothing`, else emit every x-axis tick (placed at
`graph_to_world(v, 0)`) followed by every y-axis tick (placed at
`graph_to_world(0, v)`). -/
def draw_ticks (g : Graph) : List DrawCmd :=
  if g.style.x_style.tick_style = TickStyle.Nothing
      ∧ g.style.y_style.tick_style = TickStyle.Nothing then []
  else
    (axis_tick_values g.x_range g.style.x_style.tick_step).flatMap (fun v =>
      draw_tick (g.graph_to_world ⟨v, 0⟩) v Orientation.Horizontal
        g.style.x_style.tick_style) ++
    (axis_tick_values g.y_range g.style.y_style.tick_step).flatMap (fun v =>
      draw_tick (g.graph_to_world ⟨0, v⟩) v Orientation.Vertical
        g.style.y_style.tick_style)

/-- src/plot.rs lines 403-454: `Graph::draw_axes_end_pts` — optional
triangular arrowheads at the four axis extremities, each skipped when the
guarding comparison against `zero_position = graph_to_world(0,0)` fails.
The fourth guard is transcribed exactly as the source has it at line 443:
it compares `world_max_coords.x` with `zero_position.y`. -/
def draw_axes_end_pts (g : Graph) : List DrawCmd :=
  let zero_position := g.graph_to_world ⟨0, 0⟩
  (match g.style.x_style.end_point_style with
   | GraphEndPointStyle.Arrow thickness =>
       let min_x := g.world_min_coords.x - thickness
       let max_x := g.world_max_coords.x + thickness
       let y := zero_position.y
       (if g.world_min_coords.x ≠ zero_position.x then
          [DrawCmd.triangle ⟨min_x, y⟩ ⟨min_x + thickness, y + thickness⟩
            ⟨min_x + thickness, y - thickness⟩ g.style.x_style.line_color]
        else []) ++
       (if g.world_max_coords.x ≠ zero_position.x then
          [DrawCmd.triangle ⟨max_x, y⟩ ⟨max_x - thickness, y + thickness⟩
            ⟨max_x - thickness, y - thickness⟩ g.style.x_style.line_color]
        else [])
   | GraphEndPointStyle.Nothing => []) ++
  (match g.style.y_style.end_point_style with
   | GraphEndPointStyle.Arrow thickness =>
       let min_y := g.world_min_coords.y - thickness
       let max_y := g.world_max_coords.y + thickness
       let x := zero_position.x
       (if g.world_min_coords.y ≠ zero_position.y then
          [DrawCmd.triangle ⟨x, min_y⟩ ⟨x + thickness, min_y + thickness⟩
            ⟨x - thickness, min_y + thickness⟩ g.style.x_style.line_color]
        else []) ++
       (if g.world_max_coords.x ≠ zero_position.y then
          [DrawCmd.triangle ⟨x, max_y⟩ ⟨x + thickness, max_y - thickness⟩
            ⟨x - thickness, max_y - thickness⟩ g.style.x_style.line_color]
        else [])
   | GraphEndPointStyle.Nothing => [])

/-- src/plot.rs lines 167-190: `Graph::draw_axes` — the horizontal x-axis
line (drawn with the y style's thickness and color), the vertical y-axis
line (drawn with the x style's thickness and color), then the end-point
decorations and the ticks. -/
def draw_axes (g : Graph) : List DrawCmd :=
  [DrawCmd.line g.world_min_coords.x g.axes_pos.y g.world_max_coords.x g.axes_pos.y
     g.style.y_style.line_thickness g.style.y_style.line_color,
   DrawCmd.line g.axes_pos.x g.world_min_coords.y g.axes_pos.x g.world_max_coords.y
     g.style.x_style.line_thickness g.style.x_style.line_color] ++
  draw_axes_end_pts g ++ draw_ticks g

/-- src/plot.rs lines 516-521: `Graph::world_pt_in_world_bb`. -/
def world_pt_in_world_bb (g : Graph) (pt : Vec2) : Bool :=
  decide (pt.x ≥ g.world_min_coords.x) && decide (pt.y ≥ g.world_min_coords.y)
    && decide (pt.x ≤ g.world_max_coords.x) && decide (pt.y ≤ g.world_max_coords.y)

/-- src/plot.rs lines 506-515: `Graph::plot_line_world` — bails (emits
nothing) when neither endpoint is in the world bounding box, otherwise draws
one unclipped segment between the raw endpoints. -/
def plot_line_world (g : Graph) (pt_a pt_b : Vec2) (thickness : ℚ)
    (color : Color) : List DrawCmd :=
  if !(world_pt_in_world_bb g pt_a) && !(world_pt_in_world_bb g pt_b) then []
  else [DrawCmd.line pt_a.x pt_a.y pt_b.x pt_b.y thickness color]

/-- src/plot.rs lines 473-479: `Graph::plot_line_vec` — `windows(2)` over the
point list, each consecutive pair mapped by `graph_to_world` and handed to
`plot_line_world`. -/
def plot_line_vec (g : Graph) (pts : List Vec2) (thickness : ℚ)
    (color : Color) : List DrawCmd :=
  (pts.zip pts.tail).flatMap (fun pair =>
    plot_line_world g (g.graph_to_world pair.1) (g.graph_to_world pair.2)
      thickness color)

/-- src/plot.rs lines 489-496: `Graph::plot_pt_vec` — draws a circle only
when the mapped point is inside the world bounding box. -/
def plot_pt_vec (g : Graph) (pt : Vec2) (radius : ℚ) (color : Color) : List DrawCmd :=
  let pt := g.graph_to_world pt
  if !(world_pt_in_world_bb g pt) then []
  else [DrawCmd.circle pt.x pt.y radius color]

/-! ## Concrete instances used to evaluate the definitions -/

/-- An `Animation` state with surface/logical size `w × h`, on-window blit
size `sx × sy`, auto-resize on, off-canvas, and no allocations recorded yet. -/
def C1state (w h sx sy : ℚ) : AnimState :=
  { width := w, height := h, draw_size := ⟨sx, sy⟩, scale := 1,
    auto_resize := true, render_state := RenderState.ScreenRendering,
    bg_color := WHITE, allocCount := 0 }

/-- A 10 × 10 graph centered at the world origin over the unit domain. -/
def g6 : Graph := Graph.init ⟨0, 0⟩ ⟨10, 10⟩ ⟨0, 1⟩ ⟨0, 1⟩

/-- A 10 × 10 graph centered at world (10, 0) with x domain `[0, 20)` and
y domain `[-10, 0)`, so that the domain origin's world position
`graph_to_world(0,0) = (5, 5)` lies exactly at the top extremity of the
y-axis (`world_max_coords.y = 5`). -/
def g8 : Graph := Graph.init ⟨10, 0⟩ ⟨10, 10⟩ ⟨0, 20⟩ ⟨-10, 0⟩

/-- Holds when a draw command is either not a triangle or is a triangle of
the given color. -/
def isTriangleWithColor (c : Color) : DrawCmd → Bool
  | DrawCmd.triangle _ _ _ col => decide (col = c)
  | _ => true

/-! ## Theorems -/

/-- C7: for every `a ≠ b` and `c ≠ d`, the coordinate mapper satisfies
`map(a,a,b,c,d) = c` and `map(b,a,b,c,d) = d`, and composing the forward and
reverse mappings returns the input: `map(map(v,a,b,c,d),c,d,a,b) = v` for
every `v` (exactly, in the rational model of the `f32` arithmetic). -/
theorem C7_map_endpoints_and_roundtrip (a b c d : ℚ) (hab : a ≠ b) (hcd : c ≠ d) :
    map a a b c d = c ∧ map b a b c d = d ∧
      ∀ v : ℚ, map (map v a b c d) c d a b = v := by
  have hba : b - a ≠ 0 := sub_ne_zero.mpr (Ne.symm hab)
  have hdc : d - c ≠ 0 := sub_ne_zero.mpr (Ne.symm hcd)
  refine ⟨by simp [map], ?_, ?_⟩
  · unfold map
    rw [div_self hba]
    ring
  · intro v
    unfold map
    field_simp
    ring

/-- Witness for C7 at `a = 0`, `b = 10`, `c = -5`, `d = 5`, `v = 3`. -/
theorem C7_map_witness :
    map 0 0 10 (-5) 5 = -5 ∧ map 10 0 10 (-5) 5 = 5 ∧
      map (map 3 0 10 (-5) 5) (-5) 5 0 10 = 3 :=
  ⟨(C7_map_endpoints_and_roundtrip 0 10 (-5) 5 (by norm_num) (by norm_num)).1,
   (C7_map_endpoints_and_roundtrip 0 10 (-5) 5 (by norm_num) (by norm_num)).2.1,
   (C7_map_endpoints_and_roundtrip 0 10 (-5) 5 (by norm_num) (by norm_num)).2.2 3⟩

/-- C2: `draw_frame` ("blit_to_window") fails fatally if and only if
`render_state` is `CameraRendering` (On-Canvas) at the time of the call, and
the sequence `set_camera` (activate), `set_default_camera` (deactivate),
`draw_frame` (blit) completes without error from any state. -/
theorem C2_draw_frame_state_machine :
    (∀ (W H : ℚ) (s : AnimState),
      exceptOk (draw_frame W H s) = false ↔
        s.render_state = RenderState.CameraRendering) ∧
    ∀ (W H : ℚ) (s : AnimState),
      exceptOk (draw_frame W H (set_default_camera (set_camera s))) = true := by
  constructor
  · intro W H s
    by_cases h : s.render_state = RenderState.CameraRendering <;>
      simp [draw_frame, h, exceptOk]
  · intro W H s
    simp [draw_frame, set_default_camera, exceptOk]

/-- C9: the process-wide default font is set exactly once — construction
from an empty `DEFAULT_FONT` cell succeeds and installs the font, any
construction finding the cell already set panics with the `expect` message
(it is a fatal error, not silently ignored), and in particular chaining a
second `Animation::new` after a first one fails. -/
theorem C9_font_set_once :
    (∀ (W H w h : ℚ) (bg : Option Color),
      ∃ s, Animation.new none W H w h bg = Except.ok (some droidSansMono, s)) ∧
    (∀ (f : Font) (W H w h : ℚ) (bg : Option Color),
      Animation.new (some f) W H w h bg =
        Except.error "Failed to set the Default font to Droid Sans Mono") ∧
    exceptOk ((Animation.new none 1920 1080 1280 720 none).bind
      (fun r => Animation.new r.1 1920 1080 1280 720 none)) = false := by
  refine ⟨?_, ?_, rfl⟩
  · intro W H w h bg
    exact ⟨_, rfl⟩
  · intro f W H w h bg
    rfl

/-- C3: for every world point inside the canvas, applying the blit
transform of `draw_frame` (`scale = min(W/width, H/height)`, centering
offset `(window_dim - declared_dim * scale)/2`, y flipped) and then
`screen_to_world` returns the point exactly (the rational model of the
`f32` arithmetic makes the floating-point tolerance exact). -/
theorem C3_unprojection_roundtrip (W H width height : ℚ)
    (hW : 0 < W) (hH : 0 < H) (hw : 0 < width) (hh : 0 < height) (p : Vec2)
    (_hpx : |p.x| ≤ width / 2) (_hpy : |p.y| ≤ height / 2) :
    screen_to_world width height (compute_scale W H width height) W H
      (project_to_screen W H width height p) = p := by
  have hs : 0 < compute_scale W H width height :=
    lt_min (div_pos hW hw) (div_pos hH hh)
  have hs0 : compute_scale W H width height ≠ 0 := ne_of_gt hs
  unfold screen_to_world project_to_screen
  ext
  · show ((W - width * compute_scale W H width height) * (1/2)
        + (p.x + width * (1/2)) * compute_scale W H width height
        - (W - width * compute_scale W H width height) * (1/2))
        / compute_scale W H width height - (1/2) * width = p.x
    field_simp
    ring
  · show (1/2) * height
        - ((H - height * compute_scale W H width height) * (1/2)
          + (height * (1/2) - p.y) * compute_scale W H width height
          - (H - height * compute_scale W H width height) * (1/2))
          / compute_scale W H width height = p.y
    field_simp
    ring

/-- Witness for C3 at a 1280 × 720 canvas in a 1920 × 1080 window, for the
world point (100, 50). -/
theorem C3_unprojection_witness :
    screen_to_world 1280 720 (compute_scale 1920 1080 1280 720) 1920 1080
      (project_to_screen 1920 1080 1280 720 ⟨100, 50⟩) = ⟨100, 50⟩ :=
  C3_unprojection_roundtrip 1920 1080 1280 720 (by norm_num) (by norm_num)
    (by norm_num) (by norm_num) ⟨100, 50⟩
    (by show |(100 : ℚ)| ≤ 1280 / 2; norm_num)
    (by show |(50 : ℚ)| ≤ 720 / 2; norm_num)

/-- C1 counterexample: with allocated surface 100 × 100 recorded in
`draw_size` and logical size 140 × 140 (= 1.4 × S, inside the claimed
closed band `[0.5 S, 1.5 S]`), `set_camera` performs no reallocation and
leaves the size at 140 — not the growth to `1.4 S × 0.5 = 70` the claim
asserts; and at exactly 50 × 50 (= 0.5 × S, an endpoint of the claimed
no-reallocation band) `set_camera` does reallocate, to 100 × 100. -/
theorem C1_counterexample :
    (set_camera (C1state 140 140 100 100)).allocCount = 0 ∧
    (set_camera (C1state 140 140 100 100)).width = 140 ∧
    (set_camera (C1state 140 140 100 100)).width ≠ 140 * RESIZE_HYSTERESIS ∧
    (set_camera (C1state 50 50 100 100)).allocCount = 1 ∧
    (set_camera (C1state 50 50 100 100)).width = 100 := by
  norm_num [set_camera, C1state, resize_render_target, RESIZE_HYSTERESIS]

/-- C1 amended: with auto-resize on, `set_camera` leaves the surface
untouched (same `width`, `height`, `draw_size`, no new allocation, and
repeated calls are idempotent) whenever the logical size lies strictly
inside the half-open band `(0.5 S, 1.5 S]` in both dimensions; exceeding
`1.5 S` in either dimension resizes to `logical × 0.5` (e.g. 160 for
S = 100 resizes to 80), and falling to `0.5 S` or below in either dimension
resizes to `logical / 0.5` (e.g. 40 for S = 100 resizes to 80). -/
theorem C1_amended_hysteresis (s : AnimState) (ha : s.auto_resize = true)
    (hx1 : s.draw_size.x * (1/2) < s.width) (hx2 : s.width ≤ s.draw_size.x * (3/2))
    (hy1 : s.draw_size.y * (1/2) < s.height) (hy2 : s.height ≤ s.draw_size.y * (3/2)) :
    ((set_camera s).width = s.width ∧ (set_camera s).height = s.height ∧
     (set_camera s).draw_size = s.draw_size ∧
     (set_camera s).allocCount = s.allocCount ∧
     set_camera (set_camera s) = set_camera s) ∧
    (set_camera (C1state 160 160 100 100)).width = 160 * RESIZE_HYSTERESIS ∧
    (set_camera (C1state 40 40 100 100)).width = 40 / RESIZE_HYSTERESIS := by
  have h1 : ¬(s.width > s.draw_size.x * (1 + RESIZE_HYSTERESIS)
      ∨ s.height > s.draw_size.y * (1 + RESIZE_HYSTERESIS)) := by
    rintro (h | h) <;> simp only [RESIZE_HYSTERESIS] at h <;> linarith
  have h2 : ¬(s.width ≤ s.draw_size.x * (1 - RESIZE_HYSTERESIS)
      ∨ s.height ≤ s.draw_size.y * (1 - RESIZE_HYSTERESIS)) := by
    rintro (h | h) <;> simp only [RESIZE_HYSTERESIS] at h <;> linarith
  have hstep : set_camera s = { s with render_state := RenderState.CameraRendering } := by
    unfold set_camera
    rw [if_pos ha, if_neg h1, if_neg h2]
  have ha2 : ({ s with render_state := RenderState.CameraRendering } : AnimState).auto_resize
      = true := ha
  have h12 : ¬(({ s with render_state := RenderState.CameraRendering } : AnimState).width
        > ({ s with render_state := RenderState.CameraRendering } : AnimState).draw_size.x
          * (1 + RESIZE_HYSTERESIS)
      ∨ ({ s with render_state := RenderState.CameraRendering } : AnimState).height
        > ({ s with render_state := RenderState.CameraRendering } : AnimState).draw_size.y
          * (1 + RESIZE_HYSTERESIS)) := h1
  have h22 : ¬(({ s with render_state := RenderState.CameraRendering } : AnimState).width
        ≤ ({ s with render_state := RenderState.CameraRendering } : AnimState).draw_size.x
          * (1 - RESIZE_HYSTERESIS)
      ∨ ({ s with render_state := RenderState.CameraRendering } : AnimState).height
        ≤ ({ s with render_state := RenderState.CameraRendering } : AnimState).draw_size.y
          * (1 - RESIZE_HYSTERESIS)) := h2
  refine ⟨⟨?_, ?_, ?_, ?_, ?_⟩,
    by norm_num [set_camera, C1state, resize_render_target, RESIZE_HYSTERESIS],
    by norm_num [set_camera, C1state, resize_render_target, RESIZE_HYSTERESIS]⟩
  · rw [hstep]
  · rw [hstep]
  · rw [hstep]
  · rw [hstep]
  · rw [hstep]
    unfold set_camera
    rw [if_pos ha2, if_neg h12, if_neg h22]

/-- Witness for the amended C1 at logical size 100 × 100 over a recorded
100 × 100 surface (strictly inside the band). -/
theorem C1_amended_witness :
    (set_camera (C1state 100 100 100 100)).width = 100 ∧
    (set_camera (C1state 100 100 100 100)).allocCount = 0 ∧
    set_camera (set_camera (C1state 100 100 100 100)) =
      set_camera (C1state 100 100 100 100) := by
  have h := (C1_amended_hysteresis (C1state 100 100 100 100) rfl
    (by norm_num [C1state]) (by norm_num [C1state])
    (by norm_num [C1state]) (by norm_num [C1state])).1
  refine ⟨?_, ?_, h.2.2.2.2⟩
  · rw [h.1]; rfl
  · rw [h.2.2.2.1]; rfl

/-- The tick starting value of an axis lies inside the axis domain. -/
theorem tick_start_bounds (r : Range) (h : r.start < r.stop) :
    r.start ≤ tick_start r ∧ tick_start r ≤ r.stop := by
  unfold tick_start
  split_ifs with h1 h2
  · simp [Range.containsQ] at h1
    exact ⟨h1.1, le_of_lt h1.2⟩
  · exact ⟨le_of_lt h, le_refl _⟩
  · exact ⟨le_refl _, le_of_lt h⟩

/-- Every emitted tick value stays inside the axis domain. -/
theorem axis_tick_values_bounds (r : Range) (step : ℚ) (hstep : 0 < step)
    (h : r.start < r.stop) :
    ∀ v ∈ axis_tick_values r step, r.start ≤ v ∧ v ≤ r.stop := by
  intro v hv
  obtain ⟨hts1, hts2⟩ := tick_start_bounds r h
  simp only [axis_tick_values, List.mem_flatMap, List.mem_range] at hv
  obtain ⟨k, hk, hv⟩ := hv
  rw [List.mem_append] at hv
  have hks : 0 ≤ (k : ℚ) * step := mul_nonneg (Nat.cast_nonneg k) (le_of_lt hstep)
  rcases hv with hv | hv
  · split_ifs at hv with hc
    · rw [List.mem_singleton] at hv
      subst hv
      exact ⟨by linarith, hc.1⟩
    · simp at hv
  · split_ifs at hv with hc
    · rw [List.mem_singleton] at hv
      subst hv
      exact ⟨hc.1, by linarith⟩
    · simp at hv

/-- When neither endpoint of the axis domain is exactly 0, the emitted
ticks never include the value 0 (the `above != 0` / `below != 0` filters
drop it). -/
theorem axis_tick_values_ne_zero (r : Range) (step : ℚ)
    (hs : r.start ≠ 0) (he : r.stop ≠ 0) : (0 : ℚ) ∉ axis_tick_values r step := by
  intro hv
  simp only [axis_tick_values, List.mem_flatMap, List.mem_range] at hv
  obtain ⟨k, hk, hv⟩ := hv
  rw [List.mem_append] at hv
  rcases hv with hv | hv
  · split_ifs at hv with hc
    · rw [List.mem_singleton] at hv
      rcases hc.2 with h0 | h0 | h0
      · exact hs h0
      · exact he h0
      · exact h0 hv.symm
    · simp at hv
  · split_ifs at hv with hc
    · rw [List.mem_singleton] at hv
      rcases hc.2 with h0 | h0 | h0
      · exact hs h0
      · exact he h0
      · exact h0 hv.symm
    · simp at hv

/-- C4 counterexample: for the domain [0, 10] with tick step 3, the tick
generation yields the distinct positions 0, 3, 6, 9 — 4 positions, not the
`ceil(span / step) + 1 = 5` the claim's formula gives (the loop count uses
`round`, not `ceil`); and for step 2 the raw emission is
0, 0, 2, 4, 6, 8, 10 (7 draw calls, with the tick at 0 emitted twice). -/
theorem C4_counterexample :
    (axis_tick_values ⟨0, 10⟩ 3).dedup = [0, 3, 6, 9] ∧
    (⌈((10 : ℚ) - 0) / 3⌉.toNat + 1) = 5 ∧
    (axis_tick_values ⟨0, 10⟩ 3).dedup.length ≠ ⌈((10 : ℚ) - 0) / 3⌉.toNat + 1 ∧
    axis_tick_values ⟨0, 10⟩ 2 = [0, 0, 2, 4, 6, 8, 10] := by
  have h3 : num_ticks ⟨0, 10⟩ 3 = 4 := by norm_num [num_ticks, rustRound]; rfl
  have h2 : num_ticks ⟨0, 10⟩ 2 = 6 := by norm_num [num_ticks, rustRound]; rfl
  have hl3 : axis_tick_values ⟨0, 10⟩ 3 = [0, 0, 3, 6, 9] := by
    norm_num [axis_tick_values, h3, tick_start, Range.containsQ, List.range_succ]
  have hd3 : (axis_tick_values ⟨0, 10⟩ 3).dedup = [0, 3, 6, 9] := by
    rw [hl3]
    norm_num [List.dedup_cons_of_mem, List.dedup_cons_of_not_mem]
  have hc : (⌈((10 : ℚ) - 0) / 3⌉.toNat + 1) = 5 := by
    have hceil : ⌈((10 : ℚ) - 0) / 3⌉ = 4 := by
      rw [Int.ceil_eq_iff]
      constructor <;> norm_num
    rw [hceil]
    rfl
  refine ⟨hd3, hc, ?_, ?_⟩
  · rw [hd3, hc]
    norm_num
  · norm_num [axis_tick_values, h2, tick_start, Range.containsQ, List.range_succ]

/-- C4 amended: tick values are filtered to lie within the axis domain; the
loop count is `round(span / step)` (half away from zero), plus one when an
endpoint is exactly 0, rather than a ceiling; for the domain [0, 10] with
step 2 the loop runs 6 times and yields the 6 distinct tick positions
0, 2, 4, 6, 8, 10 (with 0 emitted twice, so 7 draw calls), while step 3
runs the loop 4 times and yields the 4 distinct positions 0, 3, 6, 9. -/
theorem C4_amended_tick_count :
    (∀ (r : Range) (step : ℚ), 0 < step → r.start < r.stop →
      ∀ v ∈ axis_tick_values r step, r.start ≤ v ∧ v ≤ r.stop) ∧
    num_ticks ⟨0, 10⟩ 2 = 6 ∧
    axis_tick_values ⟨0, 10⟩ 2 = [0, 0, 2, 4, 6, 8, 10] ∧
    (axis_tick_values ⟨0, 10⟩ 2).dedup = [0, 2, 4, 6, 8, 10] ∧
    num_ticks ⟨0, 10⟩ 3 = 4 ∧
    (axis_tick_values ⟨0, 10⟩ 3).dedup = [0, 3, 6, 9] := by
  have h2 : num_ticks ⟨0, 10⟩ 2 = 6 := by norm_num [num_ticks, rustRound]; rfl
  have h3 : num_ticks ⟨0, 10⟩ 3 = 4 := by norm_num [num_ticks, rustRound]; rfl
  have hl2 : axis_tick_values ⟨0, 10⟩ 2 = [0, 0, 2, 4, 6, 8, 10] := by
    norm_num [axis_tick_values, h2, tick_start, Range.containsQ, List.range_succ]
  have hl3 : axis_tick_values ⟨0, 10⟩ 3 = [0, 0, 3, 6, 9] := by
    norm_num [axis_tick_values, h3, tick_start, Range.containsQ, List.range_succ]
  refine ⟨axis_tick_values_bounds, h2, hl2, ?_, h3, ?_⟩
  · rw [hl2]
    norm_num [List.dedup_cons_of_mem, List.dedup_cons_of_not_mem]
  · rw [hl3]
    norm_num [List.dedup_cons_of_mem, List.dedup_cons_of_not_mem]

/-- Witness for the amended C4: the tick value 4 of the domain [0, 10] with
step 2 lies within the domain. -/
theorem C4_amended_witness : (0 : ℚ) ≤ 4 ∧ (4 : ℚ) ≤ 10 :=
  C4_amended_tick_count.1 ⟨0, 10⟩ 2 (by norm_num) (by norm_num) 4 (by
    rw [C4_amended_tick_count.2.2.1]
    norm_num)

/-- C5 counterexample: for the domain [-10, 10] with tick step 5 (a domain
strictly straddling zero), the generated ticks are 5, -5, 10, -10 — four
ticks, with no tick at 0 at all, contradicting the claimed single tick at 0
and the claimed total of 5. -/
theorem C5_counterexample :
    axis_tick_values ⟨-10, 10⟩ 5 = [5, -5, 10, -10] ∧
    (0 : ℚ) ∉ axis_tick_values ⟨-10, 10⟩ 5 ∧
    (axis_tick_values ⟨-10, 10⟩ 5).length = 4 := by
  have h : num_ticks ⟨-10, 10⟩ 5 = 4 := by norm_num [num_ticks, rustRound]; rfl
  have hl : axis_tick_values ⟨-10, 10⟩ 5 = [5, -5, 10, -10] := by
    norm_num [axis_tick_values, h, tick_start, Range.containsQ, List.range_succ]
  refine ⟨hl, ?_, by rw [hl]; rfl⟩
  rw [hl]
  norm_num

/-- C5 amended: for every axis domain with both endpoints nonzero (in
particular every domain strictly straddling zero), tick generation draws no
tick at the value 0 — the candidate at 0 is filtered out, not drawn once;
the domain [-10, 10] with step 5 draws exactly the four ticks 5, -5,
10, -10. -/
theorem C5_amended_zero_omitted :
    (∀ (r : Range) (step : ℚ), r.start ≠ 0 → r.stop ≠ 0 →
      (0 : ℚ) ∉ axis_tick_values r step) ∧
    axis_tick_values ⟨-10, 10⟩ 5 = [5, -5, 10, -10] := by
  have h : num_ticks ⟨-10, 10⟩ 5 = 4 := by norm_num [num_ticks, rustRound]; rfl
  refine ⟨axis_tick_values_ne_zero, ?_⟩
  norm_num [axis_tick_values, h, tick_start, Range.containsQ, List.range_succ]

/-- Witness for the amended C5 at the domain [-10, 10] with step 5. -/
theorem C5_amended_witness : (0 : ℚ) ∉ axis_tick_values ⟨-10, 10⟩ 5 :=
  C5_amended_zero_omitted.1 ⟨-10, 10⟩ 5 (by norm_num) (by norm_num)

/-- C6: for every consecutive point pair handed to the line plotter, when
both `graph_to_world`-mapped endpoints are outside the world bounding box
the segment produces zero draw calls, and when at least one mapped endpoint
is inside the box it produces exactly one draw call spanning both raw
unclipped endpoints. -/
theorem C6_plot_line_clipping (g : Graph) (p q : Vec2) (thickness : ℚ)
    (color : Color) :
    (world_pt_in_world_bb g (g.graph_to_world p) = false →
     world_pt_in_world_bb g (g.graph_to_world q) = false →
     plot_line_world g (g.graph_to_world p) (g.graph_to_world q) thickness color
       = []) ∧
    (world_pt_in_world_bb g (g.graph_to_world p) = true ∨
     world_pt_in_world_bb g (g.graph_to_world q) = true →
     plot_line_world g (g.graph_to_world p) (g.graph_to_world q) thickness color
       = [DrawCmd.line (g.graph_to_world p).x (g.graph_to_world p).y
            (g.graph_to_world q).x (g.graph_to_world q).y thickness color]) := by
  constructor
  · intro ha hb
    simp [plot_line_world, ha, hb]
  · rintro (h | h) <;> simp [plot_line_world, h]

/-- Witness for C6 on `g6`: the pair (0,0)-(2,2) maps to the world segment
(-5,-5)-(15,15); (-5,-5) is inside the box, so exactly one segment spanning
the raw endpoints is drawn. -/
theorem C6_plot_line_witness :
    plot_line_world g6 (g6.graph_to_world ⟨0, 0⟩) (g6.graph_to_world ⟨2, 2⟩) 1 WHITE
      = [DrawCmd.line (g6.graph_to_world ⟨0, 0⟩).x (g6.graph_to_world ⟨0, 0⟩).y
          (g6.graph_to_world ⟨2, 2⟩).x (g6.graph_to_world ⟨2, 2⟩).y 1 WHITE] :=
  (C6_plot_line_clipping g6 ⟨0, 0⟩ ⟨2, 2⟩ 1 WHITE).2
    (Or.inl (by norm_num [g6, Graph.init, Graph.graph_to_world, map,
      world_pt_in_world_bb]))

/-- C8 (code defect): in `g8` the world position of the domain origin lies
exactly at the top extremity of the y-axis (`world_max_coords.y` equals
`graph_to_world(0,0).y`), so under the claim no arrowhead may appear at the
top extremity; but `draw_axes_end_pts` does emit the top arrowhead
(triangle (5,12)-(12,5)-(-2,5)), because the guard at src/plot.rs line 443
compares `world_max_coords.x` with `zero_position.y` — an x coordinate
against a y coordinate — instead of `world_max_coords.y` with
`zero_position.y` as its three sibling guards do. -/
theorem C8_top_arrow_bug :
    g8.world_max_coords.y = (g8.graph_to_world ⟨0, 0⟩).y ∧
    DrawCmd.triangle ⟨5, 12⟩ ⟨12, 5⟩ ⟨-2, 5⟩ WHITE ∈ draw_axes_end_pts g8 := by
  constructor
  · norm_num [g8, Graph.init, Graph.graph_to_world, map, Range.containsQ]
  · norm_num [g8, Graph.init, Graph.graph_to_world, map, Range.containsQ,
      draw_axes_end_pts, GraphStyle.default, AxisStyle.default, WHITE]

/-- `draw_tick` only emits marker segments and labels, never triangles. -/
theorem draw_tick_all_no_triangle (c : Color) (pos : Vec2) (v : ℚ)
    (o : Orientation) (st : TickStyle) :
    (draw_tick pos v o st).all (isTriangleWithColor c) = true := by
  cases o <;> cases st <;> simp [draw_tick, isTriangleWithColor]

/-- Every triangle emitted by `draw_axes_end_pts` carries the x style's
line color. -/
theorem draw_axes_end_pts_all (g : Graph) :
    (draw_axes_end_pts g).all (isTriangleWithColor g.style.x_style.line_color)
      = true := by
  cases hx : g.style.x_style.end_point_style <;>
    cases hy : g.style.y_style.end_point_style <;>
      simp [draw_axes_end_pts, hx, hy, isTriangleWithColor]

/-- `draw_ticks` emits no triangles at all. -/
theorem draw_ticks_all (g : Graph) :
    (draw_ticks g).all (isTriangleWithColor g.style.x_style.line_color)
      = true := by
  unfold draw_ticks
  split_ifs
  · rfl
  · rw [List.all_append, Bool.and_eq_true]
    constructor <;>
    · rw [List.all_eq_true]
      intro cmd hcmd
      rw [List.mem_flatMap] at hcmd
      obtain ⟨v, hv, hcmd⟩ := hcmd
      exact List.all_eq_true.mp (draw_tick_all_no_triangle _ _ _ _ _) cmd hcmd

/-- C10: `draw_axes` draws the horizontal x-axis line with the y style's
thickness and color, the vertical y-axis line with the x style's thickness
and color, and every arrowhead triangle of both axes with the x style's
line color. -/
theorem C10_axis_style_swap (g : Graph) :
    (draw_axes g).head? = some (DrawCmd.line g.world_min_coords.x g.axes_pos.y
      g.world_max_coords.x g.axes_pos.y
      g.style.y_style.line_thickness g.style.y_style.line_color) ∧
    (draw_axes g)[1]? = some (DrawCmd.line g.axes_pos.x g.world_min_coords.y
      g.axes_pos.x g.world_max_coords.y
      g.style.x_style.line_thickness g.style.x_style.line_color) ∧
    (draw_axes g).all (isTriangleWithColor g.style.x_style.line_color) = true := by
  refine ⟨rfl, ?_, ?_⟩
  · simp [draw_axes]
  · simp [draw_axes, isTriangleWithColor, draw_axes_end_pts_all g, draw_ticks_all g]

end Mqanim
